import Mathlib

/-
Verification of the go-resvg wrapper (package resvg).

The wrapper delegates SVG parsing and rasterization to an external native
engine across a foreign-function boundary.  The embedding below models the
wrapper's own logic faithfully from the Go source: the external engine is an
abstract parameter (a parse function producing a RenderTree whose raw render
behaviour is itself an abstract field), bytes are naturals, float32/float64
arithmetic of the fit-and-letterbox computation is modelled exactly over the
rationals, and uint32 arithmetic of the alpha conversion is modelled over the
naturals (no overflow is possible there since channel bytes are at most 255).
-/

namespace Resvg

/-- A 4-channel RGBA sample: one pixel of the image.RGBA buffer.  Channel
values are bytes (0..255); they are carried as naturals, with the uint32
arithmetic of the conversion pass mapped to natural arithmetic (exact, since
products stay far below 2^32). -/
structure Pixel where
  r : ℕ
  g : ℕ
  b : ℕ
  a : ℕ
deriving DecidableEq

/-- The affine transform struct: fields A..F as in the Go source. -/
structure Transform where
  A : ℚ
  B : ℚ
  C : ℚ
  D : ℚ
  E : ℚ
  F : ℚ
deriving DecidableEq

/-- Width and height dimensions, as returned by GetImageSize. -/
structure Size where
  Width : ℚ
  Height : ℚ
deriving DecidableEq

/-- The per-pixel body of convertFromPremultiplied: if alpha is neither 0 nor
255, each colour channel c becomes (c * 255) / a (uint32 truncating division)
clamped at 255; the alpha byte is written back unchanged. -/
def convertPixel (p : Pixel) : Pixel :=
  if p.a ≠ 0 ∧ p.a ≠ 255 then
    let r2 := p.r * 255 / p.a
    let g2 := p.g * 255 / p.a
    let b2 := p.b * 255 / p.a
    { r := if r2 > 255 then 255 else r2
      g := if g2 > 255 then 255 else g2
      b := if b2 > 255 then 255 else b2
      a := p.a }
  else p

/-- convertFromPremultiplied walks every pixel of the buffer once (row-major
in the source) and rewrites it in place with convertPixel; as a pure function
on the pixel list this is a map. -/
def convertFromPremultiplied (buf : List Pixel) : List Pixel :=
  buf.map convertPixel

/-- Error codes the external engine can return across the boundary
(resvg_error, minus OK which is represented by Except.ok). -/
inductive CError where
  | notAnUTF8Str
  | fileOpenFailed
  | malformedGzip
  | elementsLimitReached
  | invalidSize
  | parsingFailed
  | unknown (code : ℤ)
deriving DecidableEq

/-- The wrapper's caller-visible error conditions.  The first seven mirror
cErrorToGoError; the remaining ones are the errors the wrapper itself
constructs (empty data, no renderable elements, invalid dimensions, node
render failure). -/
inductive GoError where
  | notUTF8
  | fileOpenFailed
  | malformedGzip
  | elementsLimit
  | invalidSize
  | parsingFailed
  | unknownResvg (code : ℤ)
  | emptyData
  | noRenderableElements
  | invalidDimensions
  | invalidNaturalDimensions
  | renderNodeFailed (id : String)
deriving DecidableEq

/-- cErrorToGoError: the switch translating engine error codes into the
wrapper's typed errors (the OK case is handled by the Except structure). -/
def cErrorToGoError (e : CError) : GoError :=
  match e with
  | .notAnUTF8Str => .notUTF8
  | .fileOpenFailed => .fileOpenFailed
  | .malformedGzip => .malformedGzip
  | .elementsLimitReached => .elementsLimit
  | .invalidSize => .invalidSize
  | .parsingFailed => .parsingFailed
  | .unknown code => .unknownResvg code

/-- A parsed document handle.  isEmptyFlag, imageSize, nodeIds and the raw
premultiplied render behaviours are the abstract views of the external
engine's state behind the opaque resvg_render_tree pointer. -/
structure RenderTree where
  isEmptyFlag : Bool
  imageSize : Size
  nodeIds : List String
  rawRender : Transform → ℕ → ℕ → List Pixel
  rawRenderNode : String → Transform → ℕ → ℕ → List Pixel

/-- IsEmpty: true iff the tree has no renderable nodes (resvg_is_image_empty). -/
def RenderTree.IsEmpty (t : RenderTree) : Bool :=
  t.isEmptyFlag

/-- GetImageSize: the natural size of the SVG (resvg_get_image_size). -/
def RenderTree.GetImageSize (t : RenderTree) : Size :=
  t.imageSize

/-- The external engine as seen by ParseFromData: raw bytes in, either an
engine error code or a parsed tree out. -/
abbrev ParseEngine := List ℕ → Except CError RenderTree

/-- ParseFromData: rejects zero-length input locally with the empty-data
error, otherwise calls the engine once and maps its error code.  The second
component counts the foreign parse calls made, so that locality of the
empty-input check is expressible. -/
def ParseFromData (engine : ParseEngine) (data : List ℕ) :
    Except GoError RenderTree × ℕ :=
  if data.length = 0 then (.error .emptyData, 0)
  else
    match engine data with
    | .error e => (.error (cErrorToGoError e), 1)
    | .ok tree => (.ok tree, 1)

/-- Modelled from the spec: the external resvg_transform_identity constant is
the matrix with A = D = 1 and B = C = E = F = 0 (also asserted by the package
test TestTransform). -/
def IdentityTransform : Transform :=
  { A := 1, B := 0, C := 0, D := 1, E := 0, F := 0 }

/-- The Go conversion uint32(float32value): truncation toward zero, used only
after the wrapper has checked the value is positive. -/
def toUint32 (q : ℚ) : ℕ :=
  (⌊q⌋).toNat

/-- RenderTree.Render: raw premultiplied engine render, then exactly one
convertFromPremultiplied pass, then the buffer is returned. -/
def RenderTree.Render (t : RenderTree) (transform : Transform)
    (width height : ℕ) : List Pixel :=
  convertFromPremultiplied (t.rawRender transform width height)

/-- RenderTree.RenderNode: node-scoped render.  Modelled from the spec: the
external resvg_render_node call reports success exactly when some element of
the document carries the requested identifier; on failure the wrapper returns
an error and the buffer is discarded, on success the wrapper applies the
alpha conversion pass and returns the buffer. -/
def RenderTree.RenderNode (t : RenderTree) (id : String) (transform : Transform)
    (width height : ℕ) : Except GoError (List Pixel) :=
  let img := t.rawRenderNode id transform width height
  let success := t.nodeIds.contains id
  if !success then .error (.renderNodeFailed id)
  else .ok (convertFromPremultiplied img)

/-- The convenience Render: parse (with a fresh options object loaded with
system fonts, folded into the engine parameter), reject empty documents,
reject non-positive natural dimensions, then render at natural size with the
identity transform. -/
def Render (engine : ParseEngine) (data : List ℕ) :
    Except GoError (List Pixel) :=
  match (ParseFromData engine data).1 with
  | .error e => .error e
  | .ok tree =>
    if tree.IsEmpty then .error .noRenderableElements
    else
      let size := tree.GetImageSize
      if size.Width ≤ 0 ∨ size.Height ≤ 0 then .error .invalidDimensions
      else .ok (tree.Render IdentityTransform (toUint32 size.Width) (toUint32 size.Height))

/-- The convenience RenderWithSize: parse, reject empty documents, then
render with the identity transform at the caller-given dimensions, with no
check of the document's natural size. -/
def RenderWithSize (engine : ParseEngine) (data : List ℕ) (width height : ℕ) :
    Except GoError (List Pixel) :=
  match (ParseFromData engine data).1 with
  | .error e => .error e
  | .ok tree =>
    if tree.IsEmpty then .error .noRenderableElements
    else .ok (tree.Render IdentityTransform width height)

/-- The uniform fit scale of RenderScaledToSize: min of the two axis scales. -/
def fitScale (naturalW naturalH targetW targetH : ℚ) : ℚ :=
  min (targetW / naturalW) (targetH / naturalH)

/-- The fit-and-letterbox transform computed by RenderScaledToSize: uniform
scale on both axes, translation components centering the scaled content. -/
def fitTransform (naturalW naturalH targetW targetH : ℚ) : Transform :=
  { A := fitScale naturalW naturalH targetW targetH
    B := 0
    C := 0
    D := fitScale naturalW naturalH targetW targetH
    E := (targetW - naturalW * fitScale naturalW naturalH targetW targetH) / 2
    F := (targetH - naturalH * fitScale naturalW naturalH targetW targetH) / 2 }

/-- The convenience RenderScaledToSize: parse, reject empty documents, reject
non-positive natural dimensions before any rendering, then render with the
fit-and-letterbox transform at the caller-given dimensions. -/
def RenderScaledToSize (engine : ParseEngine) (data : List ℕ)
    (width height : ℕ) : Except GoError (List Pixel) :=
  match (ParseFromData engine data).1 with
  | .error e => .error e
  | .ok tree =>
    if tree.IsEmpty then .error .noRenderableElements
    else
      let naturalSize := tree.GetImageSize
      let naturalW := naturalSize.Width
      let naturalH := naturalSize.Height
      if naturalW ≤ 0 ∨ naturalH ≤ 0 then .error .invalidNaturalDimensions
      else .ok (tree.Render (fitTransform naturalW naturalH (width : ℚ) (height : ℚ)) width height)

/-- Rounding division with round-half-up: round(n / d) for naturals. -/
def roundDiv (n d : ℕ) : ℕ :=
  (2 * n + d) / (2 * d)

/-- The channel update the spec claims for the conversion pass:
round(c * 255 / a), clamped to [0, 255]. -/
def specChannelRound (c a : ℕ) : ℕ :=
  min (roundDiv (c * 255) a) 255

/-- Re-premultiplication used by the round-trip property: channel times alpha
over 255, rounded. -/
def repremultiply (c a : ℕ) : ℕ :=
  roundDiv (c * a) 255

/-- Claim C1 as stated by the spec: every pixel of a buffer returned by
RenderTree.Render whose alpha lies strictly between 0 and 255 has each colour
channel equal to round(channel * 255 / alpha) clamped to [0, 255]. -/
def claimC1 : Prop :=
  ∀ (t : RenderTree) (tr : Transform) (w h i : ℕ) (p q : Pixel),
    (t.rawRender tr w h)[i]? = some p →
    (RenderTree.Render t tr w h)[i]? = some q →
    0 < p.a → p.a < 255 →
    q.r = specChannelRound p.r p.a ∧
    q.g = specChannelRound p.g p.a ∧
    q.b = specChannelRound p.b p.a

/-- A one-pixel document used to evaluate the render pipeline on concrete
data: its raw render output is the single premultiplied pixel (1,1,1,2). -/
def pixTree : RenderTree :=
  { isEmptyFlag := false
    imageSize := { Width := 1, Height := 1 }
    nodeIds := ["n"]
    rawRender := fun _ _ _ => [{ r := 1, g := 1, b := 1, a := 2 }]
    rawRenderNode := fun _ _ _ _ => [{ r := 1, g := 1, b := 1, a := 2 }] }

/-- A successfully parsed document with no renderable elements. -/
def emptyTree : RenderTree :=
  { isEmptyFlag := true
    imageSize := { Width := 10, Height := 10 }
    nodeIds := []
    rawRender := fun _ _ _ => []
    rawRenderNode := fun _ _ _ _ => [] }

/-- A non-empty document whose natural width is degenerate (zero). -/
def degenTree : RenderTree :=
  { isEmptyFlag := false
    imageSize := { Width := 0, Height := 5 }
    nodeIds := []
    rawRender := fun _ _ _ => []
    rawRenderNode := fun _ _ _ _ => [] }

/-- C5: for every empty (zero-length) byte input, ParseFromData fails with
the empty-data error, makes zero calls into the external engine, and returns
no document. -/
theorem C5_parse_empty_input (engine : ParseEngine) (data : List ℕ)
    (h : data.length = 0) :
    ParseFromData engine data = (Except.error GoError.emptyData, 0) := by
  simp [ParseFromData, h]

/-- Witness for C5 at the concrete empty input and a concrete engine. -/
theorem C5_parse_empty_input_witness :
    ParseFromData (fun _ => Except.error CError.parsingFailed) [] =
      (Except.error GoError.emptyData, 0) :=
  C5_parse_empty_input (fun _ => Except.error CError.parsingFailed) [] rfl

/-- C7: node-scoped rendering with an identifier that no element of the
document carries fails with the node-render error and returns no image. -/
theorem C7_render_node_not_found (t : RenderTree) (id : String)
    (tr : Transform) (w h : ℕ) (hid : t.nodeIds.contains id = false) :
    RenderTree.RenderNode t id tr w h =
      Except.error (GoError.renderNodeFailed id) := by
  unfold RenderTree.RenderNode
  rw [hid]
  rfl

/-- Witness for C7 at a concrete document with no node identifiers. -/
theorem C7_render_node_not_found_witness :
    RenderTree.RenderNode emptyTree "missing" IdentityTransform 4 4 =
      Except.error (GoError.renderNodeFailed "missing") :=
  C7_render_node_not_found emptyTree "missing" IdentityTransform 4 4 rfl

/-- C8: the alpha-conversion pass leaves every pixel whose alpha byte is 0 or
255 entirely unchanged (in particular its R, G, B bytes). -/
theorem C8_boundary_alpha_unchanged (buf : List Pixel) (i : ℕ) (p : Pixel)
    (hp : buf[i]? = some p) (ha : p.a = 0 ∨ p.a = 255) :
    (convertFromPremultiplied buf)[i]? = some p := by
  have hfix : convertPixel p = p := by
    rcases ha with h | h <;> simp [convertPixel, h]
  unfold convertFromPremultiplied
  rw [List.getElem?_map, hp, Option.map_some', hfix]

/-- Witness for C8 at a concrete opaque pixel. -/
theorem C8_boundary_alpha_unchanged_witness :
    (convertFromPremultiplied [{ r := 10, g := 20, b := 30, a := 255 }])[0]? =
      some { r := 10, g := 20, b := 30, a := 255 } :=
  C8_boundary_alpha_unchanged [{ r := 10, g := 20, b := 30, a := 255 }] 0
    { r := 10, g := 20, b := 30, a := 255 } rfl (Or.inr rfl)

/-- convertPixel never changes the alpha byte. -/
theorem convertPixel_alpha (p : Pixel) : (convertPixel p).a = p.a := by
  unfold convertPixel
  split <;> rfl

/-- C9: the alpha-conversion pass never modifies the alpha byte of any pixel:
the alpha channels of the buffer after convertFromPremultiplied are exactly
those before (so only R, G, B bytes may change). -/
theorem C9_alpha_channel_preserved (buf : List Pixel) :
    (convertFromPremultiplied buf).map Pixel.a = buf.map Pixel.a := by
  unfold convertFromPremultiplied
  rw [List.map_map]
  exact List.map_congr_left fun p _ => convertPixel_alpha p

/-- Equivalence of the source's clamp (if over 255 then 255) with min. -/
theorem ite_clamp_eq_min (x : ℕ) : (if x > 255 then 255 else x) = min x 255 := by
  rcases le_or_lt x 255 with h | h
  · rw [if_neg (by omega), min_eq_left h]
  · rw [if_pos h, min_eq_right (le_of_lt h)]

/-- C1 (counterexample): the conversion pass does not round: at the concrete
premultiplied pixel (1,1,1,2) the code produces 255 * 1 / 2 truncated to 127
while round(1 * 255 / 2) = 128, so the claim as stated is false. -/
theorem C1_counterexample : ¬claimC1 := by
  intro hcl
  have h := hcl pixTree IdentityTransform 1 1 0
    { r := 1, g := 1, b := 1, a := 2 } { r := 127, g := 127, b := 127, a := 2 }
    rfl rfl (by decide) (by decide)
  exact absurd h.1 (by decide)

/-- C1 (amended): every buffer returned by RenderTree.Render or a successful
RenderTree.RenderNode is the raw engine output with the conversion pass
applied exactly once, and for every pixel whose alpha a satisfies
0 < a < 255 the pass replaces each colour byte c by the truncating quotient
c * 255 / a clamped to [0, 255]; the convenience entry points return such
buffers since they delegate to RenderTree.Render. -/
theorem C1_amended_floor :
    (∀ (t : RenderTree) (tr : Transform) (w h : ℕ),
        RenderTree.Render t tr w h = convertFromPremultiplied (t.rawRender tr w h))
  ∧ (∀ (t : RenderTree) (id : String) (tr : Transform) (w h : ℕ)
        (buf : List Pixel),
        RenderTree.RenderNode t id tr w h = Except.ok buf →
        buf = convertFromPremultiplied (t.rawRenderNode id tr w h))
  ∧ (∀ p : Pixel, 0 < p.a → p.a < 255 →
        convertPixel p =
          { r := min (p.r * 255 / p.a) 255
            g := min (p.g * 255 / p.a) 255
            b := min (p.b * 255 / p.a) 255
            a := p.a }) := by
  refine ⟨fun t tr w h => rfl, ?_, ?_⟩
  · intro t id tr w h buf hok
    unfold RenderTree.RenderNode at hok
    by_cases hid : t.nodeIds.contains id
    · rw [hid] at hok
      simpa using hok.symm
    · rw [Bool.not_eq_true] at hid
      rw [hid] at hok
      simp at hok
  · intro p h0 h255
    unfold convertPixel
    rw [if_pos ⟨by omega, by omega⟩]
    simp only [ite_clamp_eq_min]

/-- Witness for C1 (amended) at concrete inputs: the one-pixel document and
the premultiplied pixel (1,1,1,2). -/
theorem C1_amended_floor_witness :
    RenderTree.Render pixTree IdentityTransform 1 1 =
      convertFromPremultiplied (pixTree.rawRender IdentityTransform 1 1) ∧
    ([{ r := 127, g := 127, b := 127, a := 2 }] : List Pixel) =
      convertFromPremultiplied (pixTree.rawRenderNode "n" IdentityTransform 1 1) ∧
    convertPixel { r := 1, g := 1, b := 1, a := 2 } =
      { r := min (1 * 255 / 2) 255, g := min (1 * 255 / 2) 255
        b := min (1 * 255 / 2) 255, a := 2 } :=
  ⟨C1_amended_floor.1 pixTree IdentityTransform 1 1,
   C1_amended_floor.2.1 pixTree "n" IdentityTransform 1 1
     [{ r := 127, g := 127, b := 127, a := 2 }] rfl,
   C1_amended_floor.2.2 { r := 1, g := 1, b := 1, a := 2 } (by decide) (by decide)⟩

/-- C6: for every successfully parsed document with no renderable elements,
each of the convenience entry points Render, RenderWithSize and
RenderScaledToSize fails with the no-renderable-elements error and returns no
image, and ParseFromData itself never raises that condition. -/
theorem C6_no_renderable_content :
    (∀ (engine : ParseEngine) (data : List ℕ) (w h : ℕ) (t : RenderTree),
        (ParseFromData engine data).1 = Except.ok t →
        t.IsEmpty = true →
        Render engine data = Except.error GoError.noRenderableElements ∧
        RenderWithSize engine data w h = Except.error GoError.noRenderableElements ∧
        RenderScaledToSize engine data w h = Except.error GoError.noRenderableElements)
  ∧ (∀ (engine : ParseEngine) (data : List ℕ),
        (ParseFromData engine data).1 ≠ Except.error GoError.noRenderableElements) := by
  constructor
  · intro engine data w h t hpt hempty
    refine ⟨?_, ?_, ?_⟩ <;>
      simp [Render, RenderWithSize, RenderScaledToSize, hpt, hempty]
  · intro engine data
    unfold ParseFromData
    split
    · simp
    · cases engine data with
      | error e => cases e <;> simp [cErrorToGoError]
      | ok t => simp

/-- Witness for C6 at a concrete engine that parses to the empty document. -/
theorem C6_no_renderable_content_witness :
    Render (fun _ => Except.ok emptyTree) [1] =
      Except.error GoError.noRenderableElements ∧
    RenderWithSize (fun _ => Except.ok emptyTree) [1] 8 8 =
      Except.error GoError.noRenderableElements ∧
    RenderScaledToSize (fun _ => Except.ok emptyTree) [1] 8 8 =
      Except.error GoError.noRenderableElements :=
  C6_no_renderable_content.1 (fun _ => Except.ok emptyTree) [1] 8 8 emptyTree rfl rfl

/-- C10: RenderWithSize renders the parsed document with the identity
transform at the caller-given width and height, with no validity check on the
document's natural size (it succeeds for any natural size whenever the
document is non-empty), whereas Render rejects a non-positive natural size
with the invalid-dimensions error. -/
theorem C10_render_with_size_identity :
    (∀ (engine : ParseEngine) (data : List ℕ) (t : RenderTree) (w h : ℕ),
        (ParseFromData engine data).1 = Except.ok t →
        t.IsEmpty = false →
        RenderWithSize engine data w h =
          Except.ok (RenderTree.Render t IdentityTransform w h))
  ∧ (∀ (engine : ParseEngine) (data : List ℕ) (t : RenderTree),
        (ParseFromData engine data).1 = Except.ok t →
        t.IsEmpty = false →
        (t.GetImageSize.Width ≤ 0 ∨ t.GetImageSize.Height ≤ 0) →
        Render engine data = Except.error GoError.invalidDimensions) := by
  constructor
  · intro engine data t w h hpt hne
    simp [RenderWithSize, hpt, hne]
  · intro engine data t hpt hne hdeg
    simp only [Render, hpt]
    rw [if_neg (by simp [hne])]
    rw [if_pos hdeg]

/-- Witness for C10 at a concrete engine parsing to a non-empty document
whose natural size is degenerate: RenderWithSize still succeeds while Render
reports invalid dimensions. -/
theorem C10_render_with_size_identity_witness :
    RenderWithSize (fun _ => Except.ok degenTree) [1] 3 3 =
      Except.ok (RenderTree.Render degenTree IdentityTransform 3 3) ∧
    Render (fun _ => Except.ok degenTree) [1] =
      Except.error GoError.invalidDimensions :=
  ⟨C10_render_with_size_identity.1 (fun _ => Except.ok degenTree) [1] degenTree 3 3 rfl rfl,
   C10_render_with_size_identity.2 (fun _ => Except.ok degenTree) [1] degenTree rfl rfl
     (Or.inl (by norm_num [degenTree, RenderTree.GetImageSize]))⟩

/-- Arithmetic core of the round-trip property: for 0 < a < 255 and c ≤ a,
the truncated unpremultiplied quotient is at most 255 and re-premultiplying
it with rounding lands within one of the original premultiplied value. -/
theorem unpremultiply_roundtrip_core (c a : ℕ) (ha0 : 0 < a) (ha255 : a < 255)
    (hca : c ≤ a) :
    c * 255 / a ≤ 255 ∧
    repremultiply (c * 255 / a) a ≤ c + 1 ∧
    c ≤ repremultiply (c * 255 / a) a + 1 := by
  have hb : c * 255 ≤ a * 255 := Nat.mul_le_mul_right 255 hca
  have hq255 : c * 255 / a ≤ 255 := by
    have h1 : c * 255 / a ≤ a * 255 / a := Nat.div_le_div_right hb
    rwa [Nat.mul_div_cancel_left 255 ha0] at h1
  have main : ∀ q rem R s : ℕ, a * q + rem = c * 255 → rem < a →
      510 * R + s = 2 * (q * a) + 255 → s < 510 → R ≤ c + 1 ∧ c ≤ R + 1 := by
    intro q rem R s h1 h2 h3 h4
    rw [Nat.mul_comm q a] at h3
    generalize hM : a * q = M at h1 h3
    omega
  have happ := main (c * 255 / a) (c * 255 % a)
    ((2 * (c * 255 / a * a) + 255) / 510) ((2 * (c * 255 / a * a) + 255) % 510)
    (Nat.div_add_mod (c * 255) a) (Nat.mod_lt _ ha0)
    (Nat.div_add_mod (2 * (c * 255 / a * a) + 255) 510)
    (Nat.mod_lt _ (by norm_num))
  have e510 : (2 : ℕ) * 255 = 510 := rfl
  simp only [repremultiply, roundDiv, e510]
  exact ⟨hq255, happ.1, happ.2⟩

/-- C3: for every pixel with alpha strictly between 0 and 255 and every
premultiplied colour byte at most the alpha, the unpremultiplied channels
produced by the conversion pass lie in [0, 255], and re-premultiplying each
(channel times alpha over 255, rounded) recovers a value within one of the
original premultiplied channel. -/
theorem C3_unpremultiply_roundtrip (p : Pixel) (ha0 : 0 < p.a)
    (ha255 : p.a < 255) (hr : p.r ≤ p.a) (hg : p.g ≤ p.a) (hb : p.b ≤ p.a) :
    (convertPixel p).r ≤ 255 ∧ (convertPixel p).g ≤ 255 ∧ (convertPixel p).b ≤ 255 ∧
    repremultiply (convertPixel p).r p.a ≤ p.r + 1 ∧
    p.r ≤ repremultiply (convertPixel p).r p.a + 1 ∧
    repremultiply (convertPixel p).g p.a ≤ p.g + 1 ∧
    p.g ≤ repremultiply (convertPixel p).g p.a + 1 ∧
    repremultiply (convertPixel p).b p.a ≤ p.b + 1 ∧
    p.b ≤ repremultiply (convertPixel p).b p.a + 1 := by
  have hcr := unpremultiply_roundtrip_core p.r p.a ha0 ha255 hr
  have hcg := unpremultiply_roundtrip_core p.g p.a ha0 ha255 hg
  have hcb := unpremultiply_roundtrip_core p.b p.a ha0 ha255 hb
  have hconv : convertPixel p =
      { r := p.r * 255 / p.a, g := p.g * 255 / p.a, b := p.b * 255 / p.a, a := p.a } := by
    unfold convertPixel
    rw [if_pos ⟨by omega, by omega⟩]
    simp only [if_neg (not_lt.mpr hcr.1), if_neg (not_lt.mpr hcg.1),
      if_neg (not_lt.mpr hcb.1)]
  rw [hconv]
  exact ⟨hcr.1, hcg.1, hcb.1, hcr.2.1, hcr.2.2, hcg.2.1, hcg.2.2, hcb.2.1, hcb.2.2⟩

/-- Witness for C3 at the concrete pixel (100, 50, 0, 200). -/
theorem C3_unpremultiply_roundtrip_witness :
    (convertPixel { r := 100, g := 50, b := 0, a := 200 }).r ≤ 255 ∧
    (convertPixel { r := 100, g := 50, b := 0, a := 200 }).g ≤ 255 ∧
    (convertPixel { r := 100, g := 50, b := 0, a := 200 }).b ≤ 255 ∧
    repremultiply (convertPixel { r := 100, g := 50, b := 0, a := 200 }).r 200 ≤ 100 + 1 ∧
    100 ≤ repremultiply (convertPixel { r := 100, g := 50, b := 0, a := 200 }).r 200 + 1 ∧
    repremultiply (convertPixel { r := 100, g := 50, b := 0, a := 200 }).g 200 ≤ 50 + 1 ∧
    50 ≤ repremultiply (convertPixel { r := 100, g := 50, b := 0, a := 200 }).g 200 + 1 ∧
    repremultiply (convertPixel { r := 100, g := 50, b := 0, a := 200 }).b 200 ≤ 0 + 1 ∧
    0 ≤ repremultiply (convertPixel { r := 100, g := 50, b := 0, a := 200 }).b 200 + 1 :=
  C3_unpremultiply_roundtrip { r := 100, g := 50, b := 0, a := 200 }
    (by decide) (by decide) (by decide) (by decide) (by decide)

/-- C2: the fit-and-letterbox computation of RenderScaledToSize produces the
transform with uniform scale min(W / w0, H / h0), zero shear, and the
centering translation ((W - w0 * scale) / 2, (H - h0 * scale) / 2); at
natural size 50 by 50 and target 200 by 100 it yields scale 2, tx 50, ty 0;
and a degenerate natural size (non-positive in either dimension) makes
RenderScaledToSize fail with the invalid-natural-dimensions error before any
rendering is attempted (for every possible raw render behaviour of the
document). -/
theorem C2_fit_and_letterbox :
    (∀ w0 h0 W H : ℚ, fitTransform w0 h0 W H =
        { A := min (W / w0) (H / h0)
          B := 0
          C := 0
          D := min (W / w0) (H / h0)
          E := (W - w0 * min (W / w0) (H / h0)) / 2
          F := (H - h0 * min (W / w0) (H / h0)) / 2 })
  ∧ fitTransform 50 50 200 100 = { A := 2, B := 0, C := 0, D := 2, E := 50, F := 0 }
  ∧ (∀ (engine : ParseEngine) (data : List ℕ) (w h : ℕ) (t : RenderTree),
        (ParseFromData engine data).1 = Except.ok t →
        t.IsEmpty = false →
        (t.GetImageSize.Width ≤ 0 ∨ t.GetImageSize.Height ≤ 0) →
        RenderScaledToSize engine data w h =
          Except.error GoError.invalidNaturalDimensions) := by
  refine ⟨fun w0 h0 W H => rfl, ?_, ?_⟩
  · unfold fitTransform fitScale
    norm_num [min_def]
  intro engine data w h t hpt hne hdeg
  simp only [RenderScaledToSize, hpt]
  rw [if_neg (by simp [hne])]
  rw [if_pos hdeg]

/-- Witness for C2 at the concrete example sizes and at a concrete engine
parsing to a document of degenerate natural width. -/
theorem C2_fit_and_letterbox_witness :
    fitTransform 50 50 200 100 = { A := 2, B := 0, C := 0, D := 2, E := 50, F := 0 } ∧
    RenderScaledToSize (fun _ => Except.ok degenTree) [1] 7 7 =
      Except.error GoError.invalidNaturalDimensions :=
  ⟨C2_fit_and_letterbox.2.1,
   C2_fit_and_letterbox.2.2 (fun _ => Except.ok degenTree) [1] 7 7 degenTree rfl rfl
     (Or.inl (by norm_num [degenTree, RenderTree.GetImageSize]))⟩

/-- C4: for positive natural and target sizes of different aspect ratios,
exactly one scaled dimension equals its target exactly while the other is
strictly smaller and centered with equal positive padding on both sides of
its axis (the translation on the exactly-fitting axis being zero). -/
theorem C4_exactly_one_axis_fits (w0 h0 W H : ℚ) (hw0 : 0 < w0) (hh0 : 0 < h0)
    (hW : 0 < W) (hH : 0 < H) (hne : W / w0 ≠ H / h0) :
    (w0 * fitScale w0 h0 W H = W ∧ h0 * fitScale w0 h0 W H < H ∧
      (fitTransform w0 h0 W H).E = 0 ∧ 0 < (fitTransform w0 h0 W H).F ∧
      (fitTransform w0 h0 W H).F + h0 * fitScale w0 h0 W H +
        (fitTransform w0 h0 W H).F = H)
  ∨ (h0 * fitScale w0 h0 W H = H ∧ w0 * fitScale w0 h0 W H < W ∧
      (fitTransform w0 h0 W H).F = 0 ∧ 0 < (fitTransform w0 h0 W H).E ∧
      (fitTransform w0 h0 W H).E + w0 * fitScale w0 h0 W H +
        (fitTransform w0 h0 W H).E = W) := by
  have hE : (fitTransform w0 h0 W H).E = (W - w0 * fitScale w0 h0 W H) / 2 := rfl
  have hF : (fitTransform w0 h0 W H).F = (H - h0 * fitScale w0 h0 W H) / 2 := rfl
  rcases lt_or_gt_of_ne hne with hlt | hgt
  · left
    have hs : fitScale w0 h0 W H = W / w0 := min_eq_left hlt.le
    have e1 : w0 * fitScale w0 h0 W H = W := by
      rw [hs]
      field_simp
    have e2 : h0 * fitScale w0 h0 W H < H := by
      rw [hs]
      have h3 : h0 * (W / w0) < h0 * (H / h0) := mul_lt_mul_of_pos_left hlt hh0
      have h4 : h0 * (H / h0) = H := by field_simp
      linarith
    exact ⟨e1, e2, by rw [hE, e1]; ring, by rw [hF]; linarith, by rw [hF]; ring⟩
  · right
    have hs : fitScale w0 h0 W H = H / h0 := min_eq_right hgt.le
    have e1 : h0 * fitScale w0 h0 W H = H := by
      rw [hs]
      field_simp
    have e2 : w0 * fitScale w0 h0 W H < W := by
      rw [hs]
      have h3 : w0 * (H / h0) < w0 * (W / w0) := mul_lt_mul_of_pos_left hgt hw0
      have h4 : w0 * (W / w0) = W := by field_simp
      linarith
    exact ⟨e1, e2, by rw [hF, e1]; ring, by rw [hE]; linarith, by rw [hE]; ring⟩

/-- Witness for C4 at the concrete sizes 50 by 50 into 200 by 100. -/
theorem C4_exactly_one_axis_fits_witness :
    (50 * fitScale 50 50 200 100 = 200 ∧ 50 * fitScale 50 50 200 100 < 100 ∧
      (fitTransform 50 50 200 100).E = 0 ∧ 0 < (fitTransform 50 50 200 100).F ∧
      (fitTransform 50 50 200 100).F + 50 * fitScale 50 50 200 100 +
        (fitTransform 50 50 200 100).F = 100)
  ∨ (50 * fitScale 50 50 200 100 = 100 ∧ 50 * fitScale 50 50 200 100 < 200 ∧
      (fitTransform 50 50 200 100).F = 0 ∧ 0 < (fitTransform 50 50 200 100).E ∧
      (fitTransform 50 50 200 100).E + 50 * fitScale 50 50 200 100 +
        (fitTransform 50 50 200 100).E = 200) :=
  C4_exactly_one_axis_fits 50 50 200 100 (by norm_num) (by norm_num)
    (by norm_num) (by norm_num) (by norm_num)

end Resvg
